import Mathlib

/-!
Verification of the TopicalChat dataset-adapter logic
(`parlai/tasks/topical_chat/agents.py` and
`parlai/tasks/topical_chat/worlds.py`).

The Python code is shallowly embedded: dictionaries become association
lists preserving insertion order, fallible code (exceptions such as
AttributeError / IndexError / NameError) becomes `Except String`, and the
process-global random draw of the generator teacher becomes an explicit
rational parameter `r` with the hypothesis `0 ≤ r < 1`.
-/

deriving instance DecidableEq for Except

/-- `TOKEN_NOCHOSEN` from agents.py. -/
def TOKEN_NOCHOSEN : String := "no_passages_used"

/-- `TOKEN_KNOWLEDGE` from agents.py. -/
def TOKEN_KNOWLEDGE : String := "__knowledge__"

/-- `TOKEN_END_KNOWLEDGE` from agents.py. -/
def TOKEN_END_KNOWLEDGE : String := "__endknowledge__"

/-- A Python dict whose values are strings, as an insertion-ordered
association list (`checked_sentence`, `checked_passage`). -/
abbrev SDict := List (String × String)

/-- A retrieved-passage dict: topic title to sentence list.  The knowledge
mapping `knowledge_dict` has the same shape. -/
abbrev KDict := List (String × List String)

/-- A Python value that can sit in the `checked_passage` or
`checked_sentence` slot of a turn once `dict.get` has supplied a default:
a string, `None`, or a dict. -/
inductive PyV where
  | str (s : String)
  | pynone
  | dict (d : SDict)
deriving DecidableEq, Repr

/-- Python truthiness for the values of `PyV`. -/
def pyTruthy : PyV → Bool
  | PyV.str s => s != ""
  | PyV.pynone => false
  | PyV.dict d => !d.isEmpty

/-- `_first_val` (agents.py).  Calling `.values()` on a non-dict raises
`AttributeError`, which the embedding surfaces as an `Except.error`. -/
def first_val : PyV → Except String String
  | PyV.dict d => Except.ok (match d with | [] => "" | (_, v) :: _ => v)
  | _ => Except.error "AttributeError"

/-- `_first_key` (agents.py). -/
def first_key : PyV → Except String String
  | PyV.dict d => Except.ok (match d with | [] => "" | (k, _) :: _ => k)
  | _ => Except.error "AttributeError"

/-- State of a JSON field that Python reads with `dict.get`: the key may be
absent, present with value `None`, or present with a dict value. -/
inductive DField where
  | absent
  | pynone
  | dict (d : SDict)
deriving DecidableEq, Repr

/-- `turn.get(key, default)`: absent keys give the default, present keys
give the stored value. -/
def fieldGet (f : DField) (dflt : PyV) : PyV :=
  match f with
  | DField.absent => dflt
  | DField.pynone => PyV.pynone
  | DField.dict d => PyV.dict d

/-- One dialogue turn (an element of the `dialog` list of an episode). -/
structure Turn where
  text : String
  retrieved_passages : List KDict
  checked_sentence : DField
  checked_passage : DField
  candidate_responses : Option (List String)
deriving DecidableEq, Repr

/-- One full dialogue (an element of the loaded JSON array). -/
structure Episode where
  chosen_topic : String
  chosen_topic_passage : List String
  dialog : List Turn
deriving DecidableEq, Repr

/-- Placeholder turn used with `List.getD`; every access in the embedding
is guarded so the placeholder is never the value actually read. -/
def defaultTurn : Turn :=
  { text := "", retrieved_passages := [], checked_sentence := DField.absent,
    checked_passage := DField.absent, candidate_responses := Option.none }

/-- `k in k_dict` (Python key membership on the knowledge mapping). -/
def kContains (d : KDict) (k : String) : Bool :=
  d.any (fun e => e.1 == k)

/-- `k_dict[k]` as an optional lookup (first binding wins, as in a Python
dict whose keys are unique). -/
def kLookup (d : KDict) (k : String) : Option (List String) :=
  (d.find? (fun e => e.1 == k)).map (fun e => e.2)

/-- `t in k_dict and sentence in k_dict[t]` from the resolver. -/
def memPassagesB (d : KDict) (t s : String) : Bool :=
  match kLookup d t with
  | Option.some ps => ps.contains s
  | Option.none => false

/-- The fallback scan of `_get_chosen_title_and_sent`: first title in
insertion order whose passage list contains the sentence, else `""`. -/
def firstTitleWith (d : KDict) (s : String) : String :=
  match d.find? (fun e => e.2.contains s) with
  | Option.some e => e.1
  | Option.none => ""

/-- Python split on the underscore character, on the character list of the key. -/
def splitOnUnderscore : List Char → List (List Char)
  | [] => [[]]
  | c :: tl =>
    let r := splitOnUnderscore tl
    if c = '_' then [] :: r
    else
      match r with
      | [] => [[c]]
      | h :: t => (c :: h) :: t

/-- Python space-join over the characters of a string segment. -/
def joinCharsSpace : List Char → String
  | [] => ""
  | [c] => String.singleton c
  | c :: tl => String.singleton c ++ " " ++ joinCharsSpace tl

/-- Candidate title (b): the space-join of the characters of the last
underscore-delimited segment of the first key of the checked-sentence dict. -/
def cand2Of (key : String) : String :=
  joinCharsSpace ((splitOnUnderscore key.data).getLastD [])

/-- Title-selection cascade at the end of `_get_chosen_title_and_sent`:
candidate (a) if truthy and its passages contain the sentence, else
candidate (b) under the membership test alone, else the insertion-order
fallback scan. -/
def resolveTitle (k_dict : KDict) (cand_title1 cand_title2 sentence : String) : String :=
  if cand_title1 != "" && memPassagesB k_dict cand_title1 sentence then cand_title1
  else if memPassagesB k_dict cand_title2 sentence then cand_title2
  else firstTitleWith k_dict sentence

/-- `_get_chosen_title_and_sent(wizard_entry, k_dict)` (agents.py lines
47-84).  `checked_passage` defaults to the string literal none, and
`checked_sentence` to the empty dict, exactly as in the source. -/
def get_chosen_title_and_sent (wizard_entry : Turn) (k_dict : KDict) :
    Except String (String × String) :=
  let title_dict := fieldGet wizard_entry.checked_passage (PyV.str "none")
  let sentence_dict := fieldGet wizard_entry.checked_sentence (PyV.dict [])
  if sentence_dict = PyV.dict [] then
    Except.ok (TOKEN_NOCHOSEN, TOKEN_NOCHOSEN)
  else
    match first_val sentence_dict with
    | Except.error e => Except.error e
    | Except.ok sentence =>
      if sentence = TOKEN_NOCHOSEN then
        Except.ok (TOKEN_NOCHOSEN, sentence)
      else
        match (if pyTruthy title_dict then first_val title_dict else Except.ok "") with
        | Except.error e => Except.error e
        | Except.ok cand_title1 =>
          match first_key sentence_dict with
          | Except.error e => Except.error e
          | Except.ok key =>
            Except.ok (resolveTitle k_dict cand_title1 (cand2Of key) sentence, sentence)

/-- One inner loop of the knowledge merge: for each key-value item of the
passage dict, insert it only when the key is not yet present (new keys are
appended, preserving dict insertion order). -/
def mergeOne (d : KDict) (passage : KDict) : KDict :=
  passage.foldl (fun acc kv => if kContains acc kv.1 then acc else acc ++ [kv]) d

/-- The outer merge loop over one source list of retrieved-passage dicts. -/
def mergeRet (d : KDict) (ret_passes : List KDict) : KDict :=
  ret_passes.foldl mergeOne d

/-- Python `sub in s` (substring containment) on character lists. -/
def listPrefixB : List Char → List Char → Bool
  | [], _ => true
  | _ :: _, [] => false
  | a :: as, b :: bs => a == b && listPrefixB as bs

/-- Helper for `strContainsB`: does `sub` occur inside `l`? -/
def listInfixB (sub : List Char) : List Char → Bool
  | [] => sub.isEmpty
  | c :: tl => listPrefixB sub (c :: tl) || listInfixB sub tl

/-- Python `sub in s` for strings (used for the train-in-datatype test). -/
def strContainsB (s sub : String) : Bool :=
  listInfixB sub.data s.data

/-- Configuration of `TopicalChatDialogKnowledgeTeacher` relevant to
`get` (constructor lines 203-210). -/
structure TeacherOpts where
  label_type : String := "response"
  include_knowledge : Bool := true
  include_checked_sentence : Bool := false
  knowledge_separator : Bool := false
  datatype : String := "train"
deriving DecidableEq, Repr

/-- Formatting of one knowledge candidate: title, knowledge token and
sentence when the separator option is on, title and sentence otherwise. -/
def fmtCand (sep : Bool) (title p : String) : String :=
  if sep then title ++ " " ++ TOKEN_KNOWLEDGE ++ " " ++ p
  else title ++ " " ++ p

/-- The flattened `knowledge_str` accumulated over the knowledge mapping
(each candidate followed by a newline). -/
def knowledgeStr (sep : Bool) (kd : KDict) : String :=
  String.join (kd.flatMap (fun e => e.2.map (fun p => fmtCand sep e.1 p ++ "\n")))

/-- The candidates appended to `label_cands` in the same loop. -/
def candList (sep : Bool) (kd : KDict) : List String :=
  kd.flatMap (fun e => e.2.map (fun p => fmtCand sep e.1 p))

/-- `len_episode` (agents.py lines 258-263): the dialog length halved,
rounding down. -/
def len_episode (d : Episode) : Nat :=
  d.dialog.length / 2

/-- `episode_done = entry_idx == (self.len_episode(episode_idx) - 1)`,
computed over the integers as in Python. -/
def episodeDoneOf (d : Episode) (entry_idx : Nat) : Bool :=
  decide ((entry_idx : Int) = (len_episode d : Int) - 1)

/-- The knowledge mapping assembled by
`TopicalChatDialogKnowledgeTeacher.get` (agents.py lines 276-302): start
from the singleton chosen-topic mapping when the chosen topic is
non-empty, otherwise from the first retrieved-passage dict of the wizard turn
(an `IndexError` when that list is empty), then merge in the passages of the
apprentice turn and, when idx - 2 is non-negative, the passages of the
previous wizard turn. -/
def knowledgeDictOf (d : Episode) (entry_idx : Nat) : Except String KDict :=
  let idx := entry_idx * 2 + 1
  if idx < d.dialog.length then
    let apprentice_ret_passages := (d.dialog.getD (idx - 1) defaultTurn).retrieved_passages
    let wizard_ret_passages :=
      if 2 ≤ idx then (d.dialog.getD (idx - 2) defaultTurn).retrieved_passages else []
    (if d.chosen_topic ≠ "" then
        Except.ok [(d.chosen_topic, d.chosen_topic_passage)]
      else
        match (d.dialog.getD idx defaultTurn).retrieved_passages with
        | [] => Except.error "IndexError"
        | p :: _ => Except.ok p).map
      (fun kd0 => mergeRet (mergeRet kd0 apprentice_ret_passages) wizard_ret_passages)
  else Except.error "IndexError"

/-- The fallible part of `TopicalChatDialogKnowledgeTeacher.get` (agents.py
lines 268-349): text, labels, label candidates, the optional resolved
(title, sentence) pair, and the flattened knowledge string. -/
def kGetParts (o : TeacherOpts) (d : Episode) (entry_idx : Nat) :
    Except String (String × List String × List String × Option (String × String) × String) :=
  let idx := entry_idx * 2 + 1
  if idx < d.dialog.length then
    match knowledgeDictOf d entry_idx with
    | Except.error e => Except.error e
    | Except.ok knowledge_dict =>
      let apprentice_entry := d.dialog.getD (idx - 1) defaultTurn
      let wizard_entry := d.dialog.getD idx defaultTurn
      let textE : Except String String :=
        if idx = 0 then Except.ok d.chosen_topic
        else if o.label_type = "chosen_sent" then
          (if 2 ≤ idx then
            Except.ok ((d.dialog.getD (idx - 2) defaultTurn).text ++ "\n" ++ apprentice_entry.text)
          else Except.error "NameError")
        else Except.ok apprentice_entry.text
      match textE with
      | Except.error e => Except.error e
      | Except.ok text =>
        let labelsE : Except String (List String) :=
          if o.label_type = "response" then Except.ok [wizard_entry.text]
          else
            match get_chosen_title_and_sent wizard_entry knowledge_dict with
            | Except.error e => Except.error e
            | Except.ok (title, sentence) =>
              if o.knowledge_separator && (title != TOKEN_NOCHOSEN) then
                Except.ok [title ++ " " ++ TOKEN_KNOWLEDGE ++ " " ++ sentence]
              else Except.ok [title ++ " " ++ sentence]
        match labelsE with
        | Except.error e => Except.error e
        | Except.ok labels =>
          let knowledge_str := knowledgeStr o.knowledge_separator knowledge_dict
          let label_cands :=
            if o.label_type = "response" then
              (if strContainsB o.datatype "train" then []
               else wizard_entry.candidate_responses.getD [])
            else
              (TOKEN_NOCHOSEN ++ " " ++ TOKEN_NOCHOSEN) ::
                candList o.knowledge_separator knowledge_dict
          match (if o.include_checked_sentence then
                  match get_chosen_title_and_sent wizard_entry knowledge_dict with
                  | Except.error e => Except.error e
                  | Except.ok p => Except.ok (Option.some p)
                else Except.ok Option.none) with
          | Except.error e => Except.error e
          | Except.ok tc => Except.ok (text, labels, label_cands, tc, knowledge_str)
  else Except.error "IndexError"

/-- The action dict returned by the knowledge teacher (agents.py lines
351-365).  `knowledge`, `title`, `checked_sentence` are optional fields
(`Option.none` when the corresponding key is not attached). -/
structure Example where
  id : String
  text : String
  labels : List String
  chosen_topic : String
  episode_done : Bool
  label_candidates : List String
  knowledge : Option String
  title : Option String
  checked_sentence : Option String
deriving DecidableEq, Repr

/-- `TopicalChatDialogKnowledgeTeacher.get` (agents.py lines 268-365). -/
def kGet (o : TeacherOpts) (d : Episode) (entry_idx : Nat) : Except String Example :=
  (kGetParts o d entry_idx).map (fun parts =>
    { id := "TopicalChatDialogKnowledgeTeacher",
      text := parts.1,
      labels := parts.2.1,
      chosen_topic := d.chosen_topic,
      episode_done := episodeDoneOf d entry_idx,
      label_candidates := parts.2.2.1,
      knowledge := if o.include_knowledge then Option.some parts.2.2.2.2 else Option.none,
      title := parts.2.2.2.1.map (fun p => p.1),
      checked_sentence := parts.2.2.2.1.map (fun p => p.2) })

/-- Configuration of `GeneratorTeacher` (agents.py lines 377-386); the
constructor forces the label type to response and
`include_checked_sentence = True` on the base teacher. -/
structure GenOpts where
  include_knowledge : Bool := true
  knowledge_separator : Bool := true
  datatype : String := "train"
  only_checked_knowledge : Bool := false
  prepend_gold_knowledge : Bool := false
  gold_knowledge_delimiter : String := "\n"
  dropout : ℚ := 0
deriving DecidableEq, Repr

/-- The base-teacher options induced by the generator constructor. -/
def genBaseOpts (g : GenOpts) : TeacherOpts :=
  { label_type := "response",
    include_knowledge := g.include_knowledge,
    include_checked_sentence := true,
    knowledge_separator := g.knowledge_separator,
    datatype := g.datatype }

/-- The post-processing of `GeneratorTeacher.get` (agents.py lines
422-461) applied to the base example: pass padding items (no `knowledge`
key) through, clear label candidates, optionally restrict knowledge to
the checked sentence, then either drop all knowledge (when the random
draw `r` falls below the dropout probability) or optionally prepend the
gold knowledge to the text. -/
def genGetStep (g : GenOpts) (r : ℚ) (a : Example) : Example :=
  match a.knowledge with
  | Option.none => a
  | Option.some _ =>
    let a1 := { a with label_candidates := ([] : List String) }
    let checkedKn :=
      a1.title.getD "" ++ " " ++ TOKEN_KNOWLEDGE ++ " " ++ a1.checked_sentence.getD ""
    let a2 :=
      if g.only_checked_knowledge then { a1 with knowledge := Option.some checkedKn }
      else a1
    let droppedKn := TOKEN_NOCHOSEN ++ " " ++ TOKEN_KNOWLEDGE ++ " " ++ TOKEN_NOCHOSEN
    let prependedText :=
      TOKEN_KNOWLEDGE ++ " " ++ a2.checked_sentence.getD "" ++ " " ++
        TOKEN_END_KNOWLEDGE ++ g.gold_knowledge_delimiter ++ a2.text
    if r < g.dropout then
      { a2 with
        title := Option.some TOKEN_NOCHOSEN,
        checked_sentence := Option.some TOKEN_NOCHOSEN,
        knowledge := Option.some droppedKn }
    else if g.prepend_gold_knowledge then
      { a2 with text := prependedText }
    else a2

/-- `GeneratorTeacher.get`, with the process-global `random.random()` draw
made an explicit parameter `r`. -/
def genGet (g : GenOpts) (d : Episode) (entry_idx : Nat) (r : ℚ) : Except String Example :=
  (kGet (genBaseOpts g) d entry_idx).map (genGetStep g r)

/-- Python `str.strip()` on both ends. -/
def stripWS (s : String) : String :=
  String.mk (((s.data.dropWhile Char.isWhitespace).reverse.dropWhile Char.isWhitespace).reverse)

/-- The observation message built by the conversation drivers
(worlds.py): id, text and the episode-done flag. -/
structure Message where
  id : String
  text : String
  episode_done : Bool
deriving DecidableEq, Repr

/-- The `user_input` consumed by `InteractiveGeneratorWorld.parley`. -/
structure UserInput where
  knowledge : String
  text : String
  history : List String
deriving DecidableEq, Repr

/-- The observation `act` built by `InteractiveGeneratorWorld.parley`
(worlds.py lines 83-98) and sent to the downstream model agent. -/
def interactiveParleyAct (gold_knowledge_delimiter : String) (u : UserInput) : Message :=
  { id := "TopicalChat GeneratorTeacher",
    text := TOKEN_KNOWLEDGE ++ " " ++ stripWS u.knowledge ++ " " ++ TOKEN_END_KNOWLEDGE ++
      gold_knowledge_delimiter ++ u.text,
    episode_done := true }

/-! ### Shared helper lemmas about the knowledge merge and the teacher -/

theorem kContains_append (d l : KDict) (k : String) (h : kContains d k = true) :
    kContains (d ++ l) k = true := by
  simp only [kContains] at h
  simp [kContains, List.any_append, h]

theorem kLookup_append (d l : KDict) (k : String) (h : kContains d k = true) :
    kLookup (d ++ l) k = kLookup d k := by
  have hsome : (d.find? (fun e => e.1 == k)).isSome := by
    rw [List.find?_isSome]
    simpa [kContains, List.any_eq_true] using h
  obtain ⟨v, hv⟩ := Option.isSome_iff_exists.mp hsome
  simp [kLookup, List.find?_append, hv]

theorem kContains_mergeOne (ps d : KDict) (k : String) (h : kContains d k = true) :
    kContains (mergeOne d ps) k = true := by
  induction ps generalizing d with
  | nil => exact h
  | cons kv tl ih =>
    show kContains (mergeOne (if kContains d kv.1 then d else d ++ [kv]) tl) k = true
    by_cases hc : kContains d kv.1
    · rw [if_pos hc]; exact ih d h
    · rw [if_neg hc]; exact ih _ (kContains_append d [kv] k h)

theorem kLookup_mergeOne (ps d : KDict) (k : String) (h : kContains d k = true) :
    kLookup (mergeOne d ps) k = kLookup d k := by
  induction ps generalizing d with
  | nil => rfl
  | cons kv tl ih =>
    show kLookup (mergeOne (if kContains d kv.1 then d else d ++ [kv]) tl) k = kLookup d k
    by_cases hc : kContains d kv.1
    · rw [if_pos hc]; exact ih d h
    · rw [if_neg hc, ih _ (kContains_append d [kv] k h), kLookup_append d [kv] k h]

theorem kContains_mergeRet (rets : List KDict) (d : KDict) (k : String)
    (h : kContains d k = true) : kContains (mergeRet d rets) k = true := by
  induction rets generalizing d with
  | nil => exact h
  | cons p tl ih =>
    show kContains (mergeRet (mergeOne d p) tl) k = true
    exact ih _ (kContains_mergeOne p d k h)

theorem kLookup_mergeRet (rets : List KDict) (d : KDict) (k : String)
    (h : kContains d k = true) : kLookup (mergeRet d rets) k = kLookup d k := by
  induction rets generalizing d with
  | nil => rfl
  | cons p tl ih =>
    show kLookup (mergeRet (mergeOne d p) tl) k = kLookup d k
    rw [ih _ (kContains_mergeOne p d k h), kLookup_mergeOne p d k h]

theorem mem_mergeOne {e : String × List String} (ps d : KDict) (h : e ∈ mergeOne d ps) :
    e ∈ d ∨ e ∈ ps := by
  induction ps generalizing d with
  | nil => exact Or.inl h
  | cons kv tl ih =>
    have h' : e ∈ mergeOne (if kContains d kv.1 then d else d ++ [kv]) tl := h
    rcases ih _ h' with hstep | htl
    · by_cases hc : kContains d kv.1
      · rw [if_pos hc] at hstep; exact Or.inl hstep
      · rw [if_neg hc] at hstep
        rcases List.mem_append.mp hstep with h1 | h2
        · exact Or.inl h1
        · exact Or.inr (List.mem_cons_self kv tl |> fun hh =>
            (List.mem_singleton.mp h2) ▸ hh)
    · exact Or.inr (List.mem_cons_of_mem kv htl)

theorem mem_mergeRet {e : String × List String} (rets : List KDict) (d : KDict)
    (h : e ∈ mergeRet d rets) : e ∈ d ∨ ∃ p ∈ rets, e ∈ p := by
  induction rets generalizing d with
  | nil => exact Or.inl h
  | cons p tl ih =>
    have h' : e ∈ mergeRet (mergeOne d p) tl := h
    rcases ih _ h' with hstep | ⟨q, hq, hmem⟩
    · rcases mem_mergeOne p d hstep with h1 | h2
      · exact Or.inl h1
      · exact Or.inr ⟨p, List.mem_cons_self p tl, h2⟩
    · exact Or.inr ⟨q, List.mem_cons_of_mem p hq, hmem⟩

theorem episode_done_of_kGet_ok {o : TeacherOpts} {d : Episode} {i : Nat} {a : Example}
    (ha : kGet o d i = Except.ok a) : a.episode_done = episodeDoneOf d i := by
  cases hp : kGetParts o d i with
  | error e => simp [kGet, hp, Except.map] at ha
  | ok p =>
    simp only [kGet, hp, Except.map, Except.ok.injEq] at ha
    rw [← ha]

theorem knowledge_of_kGet_ok {o : TeacherOpts} {d : Episode} {i : Nat} {a : Example}
    (ha : kGet o d i = Except.ok a) (hik : o.include_knowledge = true) :
    ∃ s, a.knowledge = Option.some s := by
  cases hp : kGetParts o d i with
  | error e => simp [kGet, hp, Except.map] at ha
  | ok p =>
    simp only [kGet, hp, Except.map, Except.ok.injEq] at ha
    rw [← ha]
    exact ⟨p.2.2.2.2, by simp [hik]⟩

/-! ### Concrete data used by the claim theorems and witnesses -/

/-- The two-turn Coffee episode from the scenario of the spec. -/
def coffeeEpisode : Episode :=
  { chosen_topic := "Coffee",
    chosen_topic_passage := ["Coffee is a drink."],
    dialog :=
      [ { text := "I like coffee", retrieved_passages := [],
          checked_sentence := DField.absent, checked_passage := DField.absent,
          candidate_responses := Option.none },
        { text := "Coffee is a drink.", retrieved_passages := [],
          checked_sentence := DField.dict [("wizard_Coffee_0", "Coffee is a drink.")],
          checked_passage := DField.pynone,
          candidate_responses := Option.none } ] }

/-- Default knowledge-teacher options with the response label type. -/
def respOpts : TeacherOpts :=
  { label_type := "response", include_knowledge := true,
    include_checked_sentence := false, knowledge_separator := false,
    datatype := "train" }

/-- The example the knowledge teacher produces for the Coffee episode at
entry index 0 under `respOpts`. -/
def coffeeExample : Example :=
  { id := "TopicalChatDialogKnowledgeTeacher",
    text := "I like coffee",
    labels := ["Coffee is a drink."],
    chosen_topic := "Coffee",
    episode_done := true,
    label_candidates := [],
    knowledge := Option.some "Coffee Coffee is a drink.\n",
    title := Option.none,
    checked_sentence := Option.none }

/-- A string contains a substring. -/
def strContains (s sub : String) : Prop :=
  ∃ l r, s = l ++ sub ++ r

/-! ### Claim C1 -/

/-- C1 counterexample: for the Coffee scenario episode the claim predicts
that `get(episode, 0)` with the response label type returns an example
whose text equals the chosen topic Coffee; the code returns the
apprentice message instead (the wizard never speaks first, so the index
of the wizard turn is 1 and the branch producing the chosen topic as text
is unreachable). -/
theorem claim_C1_counterexample :
    (kGet respOpts coffeeEpisode 0).map Example.text ≠ Except.ok "Coffee" := by
  decide

/-- C1 (amended): for the two-turn Coffee episode, `get(episode, 0)` with
the response label type returns an example whose text equals the
apprentice message (not the chosen topic), whose labels equal the wizard
reply, and whose knowledge string contains the chosen-topic candidate
followed by a newline. -/
theorem claim_C1_amended :
    kGet respOpts coffeeEpisode 0 = Except.ok coffeeExample ∧
    coffeeExample.text = "I like coffee" ∧
    coffeeExample.labels = ["Coffee is a drink."] ∧
    strContains (coffeeExample.knowledge.getD "") "Coffee Coffee is a drink.\n" := by
  refine ⟨by decide, by decide, by decide, "", "", by decide⟩

/-! ### Claim C2 -/

/-- A concrete interactive input whose knowledge carries surrounding
whitespace. -/
def c2input : UserInput := { knowledge := " K ", text := "t", history := [] }

/-- C2 counterexample: the interactive driver strips the knowledge string
before embedding it in the observation, and it does set the episode-done
flag to true, contradicting the claim on both counts at this input. -/
theorem claim_C2_counterexample :
    ¬ ((interactiveParleyAct "\n" c2input).text =
        TOKEN_KNOWLEDGE ++ " " ++ c2input.knowledge ++ " " ++ TOKEN_END_KNOWLEDGE ++
          "\n" ++ c2input.text ∧
      (interactiveParleyAct "\n" c2input).episode_done ≠ true) := by
  decide

/-- C2 (amended): for every input, the observation the interactive driver
sends to the downstream agent wraps the stripped knowledge between the
knowledge tokens, followed by the delimiter and the text, and the
episode-done flag is set to true. -/
theorem claim_C2_amended (delim : String) (u : UserInput) :
    (interactiveParleyAct delim u).text =
      TOKEN_KNOWLEDGE ++ " " ++ stripWS u.knowledge ++ " " ++ TOKEN_END_KNOWLEDGE ++
        delim ++ u.text ∧
    (interactiveParleyAct delim u).episode_done = true :=
  ⟨rfl, rfl⟩

/-! ### Claim C5 -/

/-- C5: for every turn and every knowledge mapping, if the turn has no
checked sentence (the key is absent or the dict is empty) or the first
checked-sentence value is the no-passages sentinel, the resolver returns
the sentinel pair regardless of the mapping contents. -/
theorem claim_C5 (w : Turn) (kd : KDict)
    (h : w.checked_sentence = DField.absent ∨ w.checked_sentence = DField.dict [] ∨
        ∃ k rest, w.checked_sentence = DField.dict ((k, TOKEN_NOCHOSEN) :: rest)) :
    get_chosen_title_and_sent w kd = Except.ok (TOKEN_NOCHOSEN, TOKEN_NOCHOSEN) := by
  rcases h with h | h | ⟨k, rest, h⟩ <;>
    simp [get_chosen_title_and_sent, h, fieldGet, first_val]

/-- C5 witness: the resolver applied to a turn with no checked-sentence
key and a non-trivial mapping. -/
theorem claim_C5_witness :
    get_chosen_title_and_sent defaultTurn [("T", ["s"])] =
      Except.ok (TOKEN_NOCHOSEN, TOKEN_NOCHOSEN) :=
  claim_C5 defaultTurn [("T", ["s"])] (Or.inl rfl)

/-! ### Claim C7 -/

/-- C7: the knowledge merge is first-writer-wins: a title already present
in the mapping before the apprentice and previous-wizard retrieved
passages are merged in keeps its sentence list through both merges; since
the initial mapping is universally quantified, this also says a title
first introduced by an earlier source is never overwritten by a later
one. -/
theorem claim_C7 (d0 : KDict) (app wiz : List KDict) (k : String)
    (h : kContains d0 k = true) :
    kLookup (mergeRet (mergeRet d0 app) wiz) k = kLookup d0 k := by
  rw [kLookup_mergeRet wiz _ k (kContains_mergeRet app d0 k h),
    kLookup_mergeRet app d0 k h]

/-- C7 witness: a title present in the initial mapping keeps its sentence
list when both later sources carry the same title. -/
theorem claim_C7_witness :
    kLookup (mergeRet (mergeRet [("T", ["a"])] [[("T", ["b"])]]) [[("T", ["c"])]]) "T" =
      kLookup [("T", ["a"])] "T" :=
  claim_C7 [("T", ["a"])] [[("T", ["b"])]] [[("T", ["c"])]] "T" (by decide)

/-! ### Claim C6 -/

/-- C6: for every episode, the episode length of the knowledge teacher is
the dialog length halved rounding down, and for every valid entry index
the episode-done flag of the produced example is true exactly when the
index is the last one. -/
theorem claim_C6 (o : TeacherOpts) (d : Episode) (i : Nat) (a : Example)
    (hi : i < len_episode d) (ha : kGet o d i = Except.ok a) :
    len_episode d = d.dialog.length / 2 ∧
      (a.episode_done = true ↔ i = len_episode d - 1) := by
  refine ⟨rfl, ?_⟩
  rw [episode_done_of_kGet_ok ha]
  simp only [episodeDoneOf, decide_eq_true_eq]
  omega

/-- C6 witness: the Coffee episode has one wizard-turn example and its
only example carries a true episode-done flag. -/
theorem claim_C6_witness :
    len_episode coffeeEpisode = coffeeEpisode.dialog.length / 2 ∧
      (coffeeExample.episode_done = true ↔ 0 = len_episode coffeeEpisode - 1) :=
  claim_C6 respOpts coffeeEpisode 0 coffeeExample (by decide) (by decide)

/-! ### Claim C8 -/

/-- C8: with the ignorant-dropout probability set to 1 on the generator
teacher (and knowledge attached, i.e. not a padding item), every produced
example has the sentinel title and checked sentence and the sentinel-only
knowledge string, for every draw of the random number in the unit
interval. -/
theorem claim_C8 (g : GenOpts) (d : Episode) (i : Nat) (r : ℚ) (a : Example)
    (hik : g.include_knowledge = true) (hdrop : g.dropout = 1)
    (hr0 : 0 ≤ r) (hr1 : r < 1)
    (ha : genGet g d i r = Except.ok a) :
    a.title = Option.some TOKEN_NOCHOSEN ∧
    a.checked_sentence = Option.some TOKEN_NOCHOSEN ∧
    a.knowledge = Option.some "no_passages_used __knowledge__ no_passages_used" := by
  cases hb : kGet (genBaseOpts g) d i with
  | error e => simp [genGet, hb, Except.map] at ha
  | ok b =>
    simp only [genGet, hb, Except.map, Except.ok.injEq] at ha
    obtain ⟨s, hs⟩ := knowledge_of_kGet_ok hb (by simp [genBaseOpts, hik])
    have hrd : r < g.dropout := by rw [hdrop]; exact hr1
    rw [← ha]
    cases hoc : g.only_checked_knowledge <;>
      simp [genGetStep, hs, hoc, hrd, TOKEN_NOCHOSEN, TOKEN_KNOWLEDGE]

/-- Generator options with certain dropout. -/
def g8Opts : GenOpts := { dropout := 1 }

/-- The example produced by the generator teacher on the Coffee episode
when the dropout fires. -/
def genDropExample : Example :=
  { id := "TopicalChatDialogKnowledgeTeacher",
    text := "I like coffee",
    labels := ["Coffee is a drink."],
    chosen_topic := "Coffee",
    episode_done := true,
    label_candidates := [],
    knowledge := Option.some "no_passages_used __knowledge__ no_passages_used",
    title := Option.some "no_passages_used",
    checked_sentence := Option.some "no_passages_used" }

/-- C8 witness: the generator teacher with dropout probability 1 on the
Coffee episode at draw 0. -/
theorem claim_C8_witness :
    genDropExample.title = Option.some TOKEN_NOCHOSEN ∧
    genDropExample.checked_sentence = Option.some TOKEN_NOCHOSEN ∧
    genDropExample.knowledge =
      Option.some "no_passages_used __knowledge__ no_passages_used" :=
  claim_C8 g8Opts coffeeEpisode 0 0 genDropExample rfl rfl (by norm_num)
    (by norm_num) (by decide)

/-! ### Claim C10 -/

/-- C10: when the ignorant dropout fires on an example that has a
knowledge field, the title, checked sentence and knowledge are rewritten
to the sentinel form while the text and labels are returned unchanged
from the underlying knowledge-teacher result; in particular the
gold-knowledge prepending of the text is skipped. -/
theorem claim_C10 (g : GenOpts) (d : Episode) (i : Nat) (r : ℚ) (a b : Example)
    (hb : kGet (genBaseOpts g) d i = Except.ok b)
    (hbk : b.knowledge ≠ Option.none)
    (hr : r < g.dropout)
    (ha : genGet g d i r = Except.ok a) :
    a.text = b.text ∧ a.labels = b.labels ∧
    a.title = Option.some TOKEN_NOCHOSEN ∧
    a.checked_sentence = Option.some TOKEN_NOCHOSEN ∧
    a.knowledge = Option.some "no_passages_used __knowledge__ no_passages_used" := by
  simp only [genGet, hb, Except.map, Except.ok.injEq] at ha
  obtain ⟨s, hs⟩ := Option.ne_none_iff_exists.mp hbk
  rw [← ha]
  cases hoc : g.only_checked_knowledge <;>
    simp [genGetStep, ← hs, hoc, hr, TOKEN_NOCHOSEN, TOKEN_KNOWLEDGE]

/-- Generator options with certain dropout and gold-knowledge prepending
requested (the dropout must win). -/
def g10Opts : GenOpts := { dropout := 1, prepend_gold_knowledge := true }

/-- The knowledge-teacher example underlying the generator output on the
Coffee episode under the generator base options. -/
def genWithKnowledgeExample : Example :=
  { id := "TopicalChatDialogKnowledgeTeacher",
    text := "I like coffee",
    labels := ["Coffee is a drink."],
    chosen_topic := "Coffee",
    episode_done := true,
    label_candidates := [],
    knowledge := Option.some "Coffee __knowledge__ Coffee is a drink.\n",
    title := Option.some "Coffee",
    checked_sentence := Option.some "Coffee is a drink." }

/-- C10 witness: with the dropout firing, the generator output keeps the
text and labels of the underlying example and rewrites the three
knowledge fields to the sentinel form, skipping the prepending. -/
theorem claim_C10_witness :
    genDropExample.text = genWithKnowledgeExample.text ∧
    genDropExample.labels = genWithKnowledgeExample.labels ∧
    genDropExample.title = Option.some TOKEN_NOCHOSEN ∧
    genDropExample.checked_sentence = Option.some TOKEN_NOCHOSEN ∧
    genDropExample.knowledge =
      Option.some "no_passages_used __knowledge__ no_passages_used" :=
  claim_C10 g10Opts coffeeEpisode 0 0 genDropExample genWithKnowledgeExample
    (by decide) (by decide) (by norm_num [g10Opts]) (by decide)

/-! ### Claim C4 -/

/-- Modelled from the claim: the title cascade as worded there, with no
non-emptiness guard on candidate (a) — prefer candidate (a) whenever it is
a key of the mapping whose passages contain the sentence.  Kept separate
from `resolveTitle` (the source cascade) for comparison. -/
def claimTitleC4 (kd : KDict) (cand_title1 cand_title2 sentence : String) : String :=
  if memPassagesB kd cand_title1 sentence then cand_title1
  else if memPassagesB kd cand_title2 sentence then cand_title2
  else firstTitleWith kd sentence

/-- A wizard turn whose checked-passage value is the empty string. -/
def w4 : Turn :=
  { defaultTurn with
    checked_sentence := DField.dict [("x_0", "s")],
    checked_passage := DField.dict [("p", "")] }

/-- A knowledge mapping in which the empty string is a key whose passages
contain the checked sentence. -/
def kd4 : KDict := [("", ["s"]), ("0", ["s"])]

/-- C4 counterexample: when candidate (a) is the empty string and the
empty string is a key of the mapping containing the sentence, the claimed
cascade returns the empty-string title, but the code skips candidate (a)
because Python truthiness rejects the empty string, and returns candidate
(b) instead. -/
theorem claim_C4_counterexample :
    get_chosen_title_and_sent w4 kd4 ≠
      Except.ok (claimTitleC4 kd4 "" (cand2Of "x_0") "s", "s") := by
  decide

/-- C4 (amended): for every wizard turn with a non-empty checked-sentence
dict whose first value is not the sentinel and with a non-empty
checked-passage dict, the resolver returns the cascade title — candidate
(a) (the first checked-passage value) if it is non-empty and is a mapping
key whose passages contain the sentence, else candidate (b) (the space
join of the characters of the last underscore segment of the
checked-sentence key) under the membership test, else the first title in
insertion order whose passages contain the sentence, else the empty
string — always paired with the checked sentence. -/
theorem claim_C4_amended (w : Turn) (kd : KDict) (k sent t1pk t1 : String)
    (rest rest2 : SDict)
    (hcs : w.checked_sentence = DField.dict ((k, sent) :: rest))
    (hcp : w.checked_passage = DField.dict ((t1pk, t1) :: rest2))
    (hsent : sent ≠ TOKEN_NOCHOSEN) :
    get_chosen_title_and_sent w kd =
      Except.ok (resolveTitle kd t1 (cand2Of k) sent, sent) := by
  simp [get_chosen_title_and_sent, hcs, hcp, fieldGet, first_val, first_key,
    pyTruthy, hsent]

/-- C4 witness: a concrete resolution through candidate (a). -/
theorem claim_C4_witness :
    get_chosen_title_and_sent
      { defaultTurn with
        checked_sentence := DField.dict [("self_Vermont_Syrup_0", "Maple syrup is sweet.")],
        checked_passage := DField.dict [("chosen", "Syrup")] }
      [("Syrup", ["Maple syrup is sweet."])] =
      Except.ok (resolveTitle [("Syrup", ["Maple syrup is sweet."])] "Syrup"
        (cand2Of "self_Vermont_Syrup_0") "Maple syrup is sweet.", "Maple syrup is sweet.") :=
  claim_C4_amended _ _ "self_Vermont_Syrup_0" "Maple syrup is sweet." "chosen" "Syrup"
    [] [] rfl rfl (by decide)

/-! ### Claim C9 -/

/-- A wizard turn with a real checked sentence but no checked-passage key
at all. -/
def w9 : Turn :=
  { defaultTurn with checked_sentence := DField.dict [("a_B", "s")] }

/-- C9 counterexample: with the checked-passage key absent, the source
defaults it to the truthy string literal none, on which the first-value
helper raises AttributeError, so resolution is not total on the absent
case (the claim asserted it does not raise there). -/
theorem claim_C9_counterexample :
    get_chosen_title_and_sent w9 [] = Except.error "AttributeError" := by
  decide

/-- C9 (amended): resolution does not raise when the checked passage is
present but None or an empty mapping (candidate (a) then degrades to the
empty string) provided the checked sentence is not a present None value;
and the first-value and first-key helpers return the empty string on an
empty dict.  When the checked-passage key is absent and a non-sentinel
checked sentence is present, resolution raises AttributeError instead. -/
theorem claim_C9_amended (w : Turn) (kd : KDict)
    (hcp : w.checked_passage = DField.pynone ∨ w.checked_passage = DField.dict [])
    (hcs : w.checked_sentence ≠ DField.pynone) :
    (∃ p, get_chosen_title_and_sent w kd = Except.ok p) ∧
    first_val (PyV.dict []) = Except.ok "" ∧
    first_key (PyV.dict []) = Except.ok "" := by
  refine ⟨?_, rfl, rfl⟩
  rcases hw : w.checked_sentence with _ | _ | ds
  · exact ⟨(TOKEN_NOCHOSEN, TOKEN_NOCHOSEN), by
      simp [get_chosen_title_and_sent, hw, fieldGet]⟩
  · exact absurd hw hcs
  · cases ds with
    | nil => exact ⟨(TOKEN_NOCHOSEN, TOKEN_NOCHOSEN), by
        simp [get_chosen_title_and_sent, hw, fieldGet]⟩
    | cons kv tl =>
      obtain ⟨k, v⟩ := kv
      by_cases hv : v = TOKEN_NOCHOSEN
      · exact ⟨(TOKEN_NOCHOSEN, v), by
          simp [get_chosen_title_and_sent, hw, fieldGet, first_val, hv]⟩
      · rcases hcp with h | h <;>
          exact ⟨(resolveTitle kd "" (cand2Of k) v, v), by
            simp [get_chosen_title_and_sent, hw, h, fieldGet, first_val, first_key,
              hv, pyTruthy]⟩

/-- C9 witness: a turn whose checked passage is a present None resolves
without an error. -/
theorem claim_C9_witness :
    (∃ p, get_chosen_title_and_sent
        { defaultTurn with
          checked_sentence := DField.dict [("a_B", "s")],
          checked_passage := DField.pynone }
        [("B", ["s"])] = Except.ok p) ∧
    first_val (PyV.dict []) = Except.ok "" ∧
    first_key (PyV.dict []) = Except.ok "" :=
  claim_C9_amended _ [("B", ["s"])] (Or.inl rfl) (by decide)

/-! ### Claim C3 -/

/-- The claimed containment: every entry of the knowledge mapping for
example i is the chosen-topic entry or an item of a passage dict
retrieved in a turn of index at most 2 * i. -/
def knowledgeOnlyUpTo (d : Episode) (i : Nat) (kd : KDict) : Prop :=
  ∀ e ∈ kd, e = (d.chosen_topic, d.chosen_topic_passage) ∨
    ∃ j, j ≤ 2 * i ∧
      ∃ passage ∈ (d.dialog.getD j defaultTurn).retrieved_passages, e ∈ passage

/-- An episode without a chosen topic whose wizard turn retrieved a
passage of its own. -/
def noTopicEpisode : Episode :=
  { chosen_topic := "", chosen_topic_passage := [],
    dialog :=
      [ { text := "hi", retrieved_passages := [],
          checked_sentence := DField.absent, checked_passage := DField.absent,
          candidate_responses := Option.none },
        { text := "T is nice", retrieved_passages := [[("T", ["s"])]],
          checked_sentence := DField.absent, checked_passage := DField.absent,
          candidate_responses := Option.none } ] }

/-- C3 counterexample: when the chosen topic is empty, the mapping is
seeded from the first retrieved-passage dict of the wizard turn itself —
turn index 2 * i + 1, later than 2 * i — so the claimed containment fails
on an episode whose earlier turns retrieved nothing. -/
theorem claim_C3_counterexample :
    ¬ (∀ (d : Episode) (i : Nat), i < len_episode d →
        ∀ kd, knowledgeDictOf d i = Except.ok kd → knowledgeOnlyUpTo d i kd) := by
  intro h
  have hx := h noTopicEpisode 0 (by decide) [("T", ["s"])] (by decide)
    ("T", ["s"]) (by decide)
  rcases hx with h1 | ⟨j, hj, passage, hp, hmem⟩
  · exact absurd h1 (by decide)
  · have hj0 : j = 0 := by omega
    subst hj0
    simp [noTopicEpisode] at hp

/-- C3 (amended): for every episode with a non-empty chosen topic and
every entry index at which the knowledge mapping is defined, every entry
of the mapping is the chosen-topic entry or comes from a passage dict
retrieved in a turn of index at most 2 * i; only the empty-chosen-topic
fallback can draw on the wizard turn at index 2 * i + 1. -/
theorem claim_C3_amended (d : Episode) (i : Nat) (hct : d.chosen_topic ≠ "")
    (kd : KDict) (hkd : knowledgeDictOf d i = Except.ok kd)
    (e : String × List String) (he : e ∈ kd) :
    e = (d.chosen_topic, d.chosen_topic_passage) ∨
      ∃ j, j ≤ 2 * i ∧
        ∃ passage ∈ (d.dialog.getD j defaultTurn).retrieved_passages, e ∈ passage := by
  by_cases hlen : i * 2 + 1 < d.dialog.length
  · simp only [knowledgeDictOf, if_pos hlen, if_pos hct, Except.map, Except.ok.injEq] at hkd
    rw [← hkd] at he
    rcases mem_mergeRet _ _ he with happ | ⟨p, hp, hmem⟩
    · rcases mem_mergeRet _ _ happ with hinit | ⟨p, hp, hmem⟩
      · exact Or.inl (List.mem_singleton.mp hinit)
      · refine Or.inr ⟨i * 2 + 1 - 1, by omega, p, ?_, hmem⟩
        exact hp
    · by_cases h2 : 2 ≤ i * 2 + 1
      · rw [if_pos h2] at hp
        exact Or.inr ⟨i * 2 + 1 - 2, by omega, p, hp, hmem⟩
      · rw [if_neg h2] at hp
        exact absurd hp (List.not_mem_nil p)
  · simp [knowledgeDictOf, if_neg hlen] at hkd

/-- C3 witness: the Coffee episode has a non-empty chosen topic and its
single mapping entry is the chosen-topic entry. -/
theorem claim_C3_witness :
    ("Coffee", ["Coffee is a drink."]) =
        (coffeeEpisode.chosen_topic, coffeeEpisode.chosen_topic_passage) ∨
      ∃ j, j ≤ 2 * 0 ∧
        ∃ passage ∈ (coffeeEpisode.dialog.getD j defaultTurn).retrieved_passages,
          ("Coffee", ["Coffee is a drink."]) ∈ passage :=
  claim_C3_amended coffeeEpisode 0 (by decide) [("Coffee", ["Coffee is a drink."])]
    (by decide) ("Coffee", ["Coffee is a drink."]) (by decide)
